import Mathlib

/-!
Verification of the storage-contract repository: a shallow embedding of the
`Storage` Solidity contract (README, Step 7) and of the deployment driver
script (`scripts/deploy.js`, duplicated in the README walkthrough, Step 9),
with theorems settling the specification's claims about them.
-/

/-- The modulus of the EVM's native word: `uint256` values are the naturals
below `2 ^ 256`. -/
def UINT256_MOD : Nat := 2 ^ 256

/-- State of the `Storage` contract: `uint256 private number;`.  In Solidity,
storage variables are zero-initialized at contract creation; see
`Storage.init`. -/
structure Storage where
  number : Nat
deriving DecidableEq, Repr

/-- Contract creation (deployment): the single storage slot `number` is
implicitly zero-initialized by the EVM. -/
def Storage.init : Storage := ⟨0⟩

/-- `function store(uint256 num) public { number = num; }` — the argument is a
`uint256`, so the value held is always reduced modulo `2 ^ 256`; for in-range
arguments the reduction is the identity. -/
def Storage.store (s : Storage) (num : Nat) : Storage :=
  { s with number := num % UINT256_MOD }

/-- `function retrieve() public view returns (uint256) { return number; }` — a
`view` function: it returns the current value together with the (unchanged)
contract state. -/
def Storage.retrieve (s : Storage) : Nat × Storage :=
  (s.number, s)

/-- Modelled from the spec: the host ledger's view of a counter resource.  The
repository contains only the contract code itself; whether a resource exists on
the ledger is host-level state ("fails with a not-found class of error if the
resource was never instantiated").  `none` is a never-instantiated resource. -/
def LedgerSlot : Type := Option Storage

/-- Error class raised by the host when reading a never-instantiated
resource. -/
inductive ReadError
  | notFound
deriving DecidableEq, Repr

/-- Modelled from the spec: a host-level read of a counter resource.  Reading
a never-instantiated resource fails with a not-found error; reading an
existing resource returns its current value via `Storage.retrieve`. -/
def ledgerRead : Option Storage → Except ReadError Nat
  | none => Except.error ReadError.notFound
  | some s => Except.ok (s.retrieve).1

/-- The five host-interacting steps of the driver script, in program order:
contract instantiation (`getContractFactory` / `deploy` / `deployed`), the
first `retrieve`, the `store` transaction, the `tx.wait()` confirmation, and
the second `retrieve`. -/
inductive Step
  | deploy
  | read1
  | write
  | wait
  | read2
deriving DecidableEq, Repr, Fintype

/-- Program-order position of each driver step. -/
def Step.idx : Step → Nat
  | .deploy => 0
  | .read1 => 1
  | .write => 2
  | .wait => 3
  | .read2 => 4

/-- The full step sequence of a successful driver run. -/
def allSteps : List Step := [Step.deploy, Step.read1, Step.write, Step.wait, Step.read2]

/-- Host failure injection: for each awaited host operation of the driver,
whether the host rejects it (network failure, authorization failure, ...).
The driver itself has no branching, so a run is determined by this profile. -/
structure FailProfile where
  fDeploy : Bool
  fRead1 : Bool
  fWrite : Bool
  fWait : Bool
  fRead2 : Bool
deriving DecidableEq, Repr, Fintype

/-- The profile in which every host operation succeeds. -/
def noFail : FailProfile := ⟨false, false, false, false, false⟩

/-- First step at which the host fails, if any: a rejected awaited call makes
the async function throw there, so later failure flags are unreachable. -/
def firstFailure (p : FailProfile) : Option Step :=
  if p.fDeploy then some Step.deploy
  else if p.fRead1 then some Step.read1
  else if p.fWrite then some Step.write
  else if p.fWait then some Step.wait
  else if p.fRead2 then some Step.read2
  else none

/-- Outcome of one run of the driver's `main`: the host steps attempted in
order, the values reported by the two `retrieve` log lines, and the outcome of
the async function — `Except.error s` when the host operation at step `s`
threw (the error value is the failure detail). -/
structure RunResult where
  trace : List Step
  reported : List Nat
  outcome : Except Step Unit

/-- The literal value passed to `storage.store` in `scripts/deploy.js`. -/
def deployLiteral : Nat := 50

/-- The literal value passed to `storage.store` in the README's copy of the
deployment script (Step 9 of the walkthrough). -/
def readmeLiteral : Nat := 100

/-- The `main` function of `scripts/deploy.js`, as a function of the host
failure profile.  In sequence: deploy the contract and await `deployed()`;
log `retrieve()`; send the `store(50)` transaction; await `tx.wait()`; log
`retrieve()` again.  A host failure at any awaited step throws, skipping the
rest; `console.log` calls are pure reporting, captured in `reported`. -/
def mainDeployJs (p : FailProfile) : RunResult :=
  if p.fDeploy then ⟨[Step.deploy], [], Except.error Step.deploy⟩ else
  let storage := Storage.init
  if p.fRead1 then ⟨[Step.deploy, Step.read1], [], Except.error Step.read1⟩ else
  let r1 := (storage.retrieve).1
  if p.fWrite then
    ⟨[Step.deploy, Step.read1, Step.write], [r1], Except.error Step.write⟩ else
  let storage2 := storage.store deployLiteral
  if p.fWait then
    ⟨[Step.deploy, Step.read1, Step.write, Step.wait], [r1], Except.error Step.wait⟩ else
  if p.fRead2 then
    ⟨[Step.deploy, Step.read1, Step.write, Step.wait, Step.read2], [r1],
      Except.error Step.read2⟩ else
  let r2 := (storage2.retrieve).1
  ⟨[Step.deploy, Step.read1, Step.write, Step.wait, Step.read2], [r1, r2], Except.ok ()⟩

/-- The `main` function of the deployment script as printed in the README
walkthrough (Step 9).  Textually the same script as `scripts/deploy.js`
except that the stored literal is `100`. -/
def mainReadme (p : FailProfile) : RunResult :=
  if p.fDeploy then ⟨[Step.deploy], [], Except.error Step.deploy⟩ else
  let storage := Storage.init
  if p.fRead1 then ⟨[Step.deploy, Step.read1], [], Except.error Step.read1⟩ else
  let r1 := (storage.retrieve).1
  if p.fWrite then
    ⟨[Step.deploy, Step.read1, Step.write], [r1], Except.error Step.write⟩ else
  let storage2 := storage.store readmeLiteral
  if p.fWait then
    ⟨[Step.deploy, Step.read1, Step.write, Step.wait], [r1], Except.error Step.wait⟩ else
  if p.fRead2 then
    ⟨[Step.deploy, Step.read1, Step.write, Step.wait, Step.read2], [r1],
      Except.error Step.read2⟩ else
  let r2 := (storage2.retrieve).1
  ⟨[Step.deploy, Step.read1, Step.write, Step.wait, Step.read2], [r1, r2], Except.ok ()⟩

/-- The common driver, parameterized on the stored literal: both copies of the
deployment script are instances of this definition (the spec treats the
literal as a configurable parameter of an otherwise identical driver). -/
def driverMain (lit : Nat) (p : FailProfile) : RunResult :=
  if p.fDeploy then ⟨[Step.deploy], [], Except.error Step.deploy⟩ else
  let storage := Storage.init
  if p.fRead1 then ⟨[Step.deploy, Step.read1], [], Except.error Step.read1⟩ else
  let r1 := (storage.retrieve).1
  if p.fWrite then
    ⟨[Step.deploy, Step.read1, Step.write], [r1], Except.error Step.write⟩ else
  let storage2 := storage.store lit
  if p.fWait then
    ⟨[Step.deploy, Step.read1, Step.write, Step.wait], [r1], Except.error Step.wait⟩ else
  if p.fRead2 then
    ⟨[Step.deploy, Step.read1, Step.write, Step.wait, Step.read2], [r1],
      Except.error Step.read2⟩ else
  let r2 := (storage2.retrieve).1
  ⟨[Step.deploy, Step.read1, Step.write, Step.wait, Step.read2], [r1, r2], Except.ok ()⟩

/-- `main().catch((error) => { console.error(error); process.exitCode = 1; })`:
the process exit code is 0 when `main` resolved, 1 when it rejected. -/
def processExitCode (r : Except Step Unit) : Nat :=
  match r with
  | Except.ok _ => 0
  | Except.error _ => 1

/-- The operator-visible error channel (`console.error` in the catch handler):
carries the failure detail exactly when `main` rejected. -/
def errorChannel (r : Except Step Unit) : Option Step :=
  match r with
  | Except.ok _ => none
  | Except.error e => some e

/-- Claim C1: for every non-negative integer v with v < 2^256, `write(v)`
followed by `read()` on any counter state returns v. -/
theorem store_then_retrieve_eq (s : Storage) (v : Nat) (h : v < UINT256_MOD) :
    ((s.store v).retrieve).1 = v := by
  simp [Storage.store, Storage.retrieve, Nat.mod_eq_of_lt h]

/-- Witness for C1: instantiates the theorem at the fresh counter and v = 42. -/
theorem store_then_retrieve_eq_witness :
    42 < UINT256_MOD ∧ ((Storage.init.store 42).retrieve).1 = 42 :=
  ⟨by decide, store_then_retrieve_eq Storage.init 42 (by decide)⟩

/-- Claim C2: on the failure-free run, the deploy.js driver attempts exactly
the sequence deploy, read, write, wait-for-confirmation, read; it performs
exactly one write; the run succeeds; the first read reports 0 and the final
read reports exactly the literal written (50). -/
theorem deploy_script_sequence_final_read :
    (mainDeployJs noFail).trace = allSteps ∧
    allSteps = [Step.deploy, Step.read1, Step.write, Step.wait, Step.read2] ∧
    (mainDeployJs noFail).trace.count Step.write = 1 ∧
    (mainDeployJs noFail).outcome = Except.ok () ∧
    (mainDeployJs noFail).reported = [0, deployLiteral] ∧
    deployLiteral = 50 := by
  refine ⟨rfl, rfl, rfl, rfl, ?_, rfl⟩
  decide

/-- Claim C3: `read()` on a freshly instantiated counter, before any write,
returns 0. -/
theorem fresh_counter_retrieve_zero : (Storage.init.retrieve).1 = 0 := rfl

/-- Claim C4: for in-range v1, v2, after `write(v1)` then `write(v2)` a read
returns v2; moreover the state after the two writes is identical to the state
after writing v2 alone, so no trace of v1 remains (last-write-wins, no
history). -/
theorem last_write_wins (s : Storage) (v1 v2 : Nat)
    (_h1 : v1 < UINT256_MOD) (h2 : v2 < UINT256_MOD) :
    (((s.store v1).store v2).retrieve).1 = v2 ∧
    (s.store v1).store v2 = s.store v2 := by
  exact ⟨by simp [Storage.store, Storage.retrieve, Nat.mod_eq_of_lt h2], rfl⟩

/-- Witness for C4: instantiates the theorem at the fresh counter with
v1 = 7, v2 = 9. -/
theorem last_write_wins_witness :
    7 < UINT256_MOD ∧ 9 < UINT256_MOD ∧
    ((((Storage.init.store 7).store 9).retrieve).1 = 9 ∧
      (Storage.init.store 7).store 9 = Storage.init.store 9) :=
  ⟨by decide, by decide, last_write_wins Storage.init 7 9 (by decide) (by decide)⟩

/-- Claim C5: `read()` never mutates the counter state, and repeated reads
with no intervening write return the same value. -/
theorem retrieve_no_mutation (s : Storage) :
    (s.retrieve).2 = s ∧ (((s.retrieve).2).retrieve).1 = (s.retrieve).1 :=
  ⟨rfl, rfl⟩

/-- Claim C6: for every host failure profile, the driver attempts no step
after the first failing one, the failure is reported on the error channel,
and the process exit code is 1; when no step fails, the whole sequence runs
and the exit code is 0. -/
theorem driver_failure_aborts_and_exit_codes (p : FailProfile) :
    (processExitCode (mainDeployJs p).outcome = 0 ↔ firstFailure p = none) ∧
    (∀ s : Step, firstFailure p = some s →
      errorChannel (mainDeployJs p).outcome = some s ∧
      processExitCode (mainDeployJs p).outcome = 1 ∧
      ∀ t : Step, s.idx < t.idx → t ∉ (mainDeployJs p).trace) ∧
    (firstFailure p = none →
      processExitCode (mainDeployJs p).outcome = 0 ∧
      (mainDeployJs p).trace = allSteps) := by
  revert p
  decide

/-- Witness for C6: instantiates the theorem at the profile in which the
write transaction fails, discharging the inner hypotheses at `Step.write`. -/
theorem driver_failure_aborts_and_exit_codes_witness :
    errorChannel (mainDeployJs ⟨false, false, true, false, false⟩).outcome = some Step.write ∧
    processExitCode (mainDeployJs ⟨false, false, true, false, false⟩).outcome = 1 ∧
    ∀ t : Step, Step.write.idx < t.idx →
      t ∉ (mainDeployJs ⟨false, false, true, false, false⟩).trace :=
  (driver_failure_aborts_and_exit_codes ⟨false, false, true, false, false⟩).2.1
    Step.write (by decide)

/-- Claim C7: a host-level read of a never-instantiated resource fails with a
not-found error; it does not succeed with any value, hence not with 0. -/
theorem read_uninstantiated_not_found :
    ledgerRead none = Except.error ReadError.notFound ∧
    ∀ v : Nat, ledgerRead none ≠ Except.ok v :=
  ⟨rfl, fun _ h => Except.noConfusion h⟩

/-- Claim C8: the stored value is always below 2^256: the invariant holds at
instantiation, is preserved by every write (the argument is a `uint256`), and
a read leaves the state untouched. -/
theorem storedValue_word_bound :
    Storage.init.number < UINT256_MOD ∧
    (∀ (s : Storage) (v : Nat), (s.store v).number < UINT256_MOD) ∧
    (∀ s : Storage, (s.retrieve).2 = s) :=
  ⟨by decide, fun _ v => Nat.mod_lt v (by decide), fun _ => rfl⟩

/-- Claim C9: the runnable scripts/deploy.js driver and the README's copy are
both instances of the same parameterized driver, at literals 50 and 100
respectively: parameterized on the stored literal, the two copies are
behaviorally equal on every host failure profile. -/
theorem driver_copies_equal_upto_literal :
    (∀ p : FailProfile, mainDeployJs p = driverMain deployLiteral p) ∧
    (∀ p : FailProfile, mainReadme p = driverMain readmeLiteral p) ∧
    deployLiteral = 50 ∧ readmeLiteral = 100 :=
  ⟨fun _ => rfl, fun _ => rfl, rfl, rfl⟩

/-- Claim C10: writing 0 is observationally indistinguishable from a fresh
counter: from any state, `write(0)` produces exactly the freshly instantiated
state, and a subsequent read returns 0, the fresh-counter read result. -/
theorem write_zero_like_fresh (s : Storage) :
    s.store 0 = Storage.init ∧
    ((s.store 0).retrieve).1 = (Storage.init.retrieve).1 := by
  constructor <;> simp [Storage.store, Storage.init, Storage.retrieve]
